import Mathlib

/-
Shallow embedding of src/src/lib.py (fix-google-photos-metadata).

Python dicts are modelled as association lists preserving insertion order,
Python sets of filenames as duplicate-free lists, and Python exceptions as
an `Except PyErr` result.  External collaborators (the `filetype` sniffers,
the `exif` tag library, `file_utils`) are abstracted as records of
functions, matching the collaborator contracts of the spec.
-/

namespace FixGPM

/-- Dynamic errors a run of the Python code can raise. -/
inductive PyErr
| invalidInput
| keyError
| typeError
| valueError
deriving DecidableEq, Repr

/-- Python os.path.splitext on a list of characters, restricted to
separator-free basenames (the code only ever applies splitext to a
basename).  The split happens at the last dot, unless every character
before that dot is itself a dot (CPython's leading-dot rule). -/
def splitextL (s : List Char) : List Char × List Char :=
  let r := s.reverse
  let revExt := r.takeWhile (fun c => c ≠ '.')
  match r.dropWhile (fun c => c ≠ '.') with
  | [] => (s, [])
  | _ :: revPre =>
    if revPre.all (fun c => c = '.') then (s, [])
    else (revPre.reverse, '.' :: revExt.reverse)

/-- Python os.path.splitext on strings (separator-free input). -/
def splitext (s : String) : String × String :=
  let p := splitextL s.toList
  (String.mk p.1, String.mk p.2)

/-- Python os.path.split: break a path at the last slash; the head is
stripped of trailing slashes unless it consists only of slashes. -/
def splitPath (s : String) : String × String :=
  let r := s.toList.reverse
  let revBase := r.takeWhile (fun c => c ≠ '/')
  let head := (r.dropWhile (fun c => c ≠ '/')).reverse
  let head2 :=
    if head.all (fun c => c = '/') then head
    else (head.reverse.dropWhile (fun c => c = '/')).reverse
  (String.mk head2, String.mk revBase.reverse)

/-- lib.py get_file_details: (os.path.dirname, then splitext of the
basename). -/
def get_file_details (full_name : String) : String × String × String :=
  let d := splitPath full_name
  let p := splitext d.2
  (d.1, p.1, p.2)

/-- Python str.lower, ASCII letters only (sufficient for the suffixes the
code compares). -/
def pyLower (s : String) : String :=
  String.mk (s.toList.map Char.toLower)

/-- Python s[-n:]: the last n characters, or the whole string when it is
shorter. -/
def lastN (n : Nat) (s : String) : String :=
  String.mk (s.toList.drop (s.toList.length - n))

/-- The test fname[-5:].lower() == ".json" used in lib.py. -/
def isJsonName (s : String) : Bool :=
  pyLower (lastN 5 s) = ".json"

/-- Python substring containment pat in s. -/
def containsSub (pat s : List Char) : Bool :=
  (List.range (s.length + 1)).any (fun i => pat.isPrefixOf (s.drop i))

/-- Python s.split(pat)[0]: everything before the first occurrence of pat
(the whole string when pat does not occur). -/
def beforeFirst (pat s : List Char) : List Char :=
  match (List.range (s.length + 1)).find? (fun i => pat.isPrefixOf (s.drop i)) with
  | some i => s.take i
  | none => s

/-- The literal marker for edited variants. -/
def editedMarker : List Char := "-edited".toList

/-- lib.py __get_key: derive the grouping key from a filename.  Note the
comparison with ".json" is exact (case-sensitive), unlike the
fname[-5:].lower() tests elsewhere in the file. -/
def get_key (fname : String) : String :=
  let det := get_file_details fname
  if det.2.2 = ".json" then (splitext det.2.1).1
  else if containsSub editedMarker det.2.1.toList then
    String.mk (beforeFirst editedMarker det.2.1.toList)
  else det.2.1

/-- Abstract filesystem plus the content-sniffing collaborators
(os.path.isdir, os.path.isfile, os.listdir, filetype.is_image,
filetype.is_video, zipfile.is_zipfile). -/
structure FS where
  isdir : String → Bool
  isfile : String → Bool
  listdir : String → List String
  is_image : String → Bool
  is_video : String → Bool
  is_zipfile : String → Bool

/-- lib.py __file_filter. -/
def file_filter (fs : FS) (fname : String) : Bool :=
  fs.isfile fname && (fs.is_image fname || fs.is_video fname || isJsonName fname)

/-- lib.py get_files: on a directory, list its immediate entries (note:
os.listdir, not the recursive __search_dir_for_files) and filter; on a
zip file, list the zip's parent directory keeping names containing the
key; otherwise raise. -/
def get_files (fs : FS) (path : String) : Except PyErr (List String) :=
  if fs.isdir path then
    Except.ok (((fs.listdir path).map (fun f => path ++ "/" ++ f)).filter (file_filter fs))
  else if fs.is_zipfile path then
    let key := get_key path
    let dn := (get_file_details path).1
    Except.ok ((((fs.listdir dn).filter
      (fun f => containsSub key.toList f.toList)).map
      (fun f => dn ++ "/" ++ f)).filter (file_filter fs))
  else Except.error PyErr.invalidInput

/-- Paths transitively listed beneath a root directory: the reflexive
base, extended through any entry listed inside a directory already
reached.  A regular file reached this way is a file at some depth
beneath the root. -/
inductive Reaches (fs : FS) (root : String) : String → Prop
| base : Reaches fs root root
| step (q n : String) : Reaches fs root q → fs.isdir q = true →
    n ∈ fs.listdir q → Reaches fs root (q ++ "/" ++ n)

/-- One group of lib.py's grouping: the Python dict that holds an
optional "json" entry (the sidecar basename) and an optional "images"
entry (a set of media basenames).  An absent field models an absent
dict key. -/
structure Pair where
  json : Option String := none
  images : Option (List String) := none
deriving DecidableEq, Repr

/-- Association-list lookup, modelling Python dict access. -/
def alookup (l : List (String × α)) (k : String) : Option α :=
  (l.find? (fun p => p.1 == k)).map (fun p => p.2)

/-- Association-list write: overwrite the entry for the key, or append a
fresh entry (Python dict insertion order). -/
def aset (l : List (String × α)) (k : String) (v : α) : List (String × α) :=
  if (l.find? (fun p => p.1 == k)).isSome then
    l.map (fun p => if p.1 == k then (p.1, v) else p)
  else l ++ [(k, v)]

/-- Python set.add on the duplicate-free list model. -/
def setAdd (l : List String) (x : String) : List String :=
  if l.contains x then l else l ++ [x]

/-- The value returned by lib.py group_files_by_name: a dict from
directory name to a dict from group key to group. -/
abbrev GroupDict := List (String × List (String × Pair))

/-- One iteration of the loop body of lib.py group_files_by_name. -/
def addToPair (p : Pair) (fname pre ext : String) : Pair :=
  if isJsonName fname then { p with json := some (pre ++ ext) }
  else { p with images := some (setAdd (p.images.getD []) (pre ++ ext)) }

/-- lib.py group_files_by_name. -/
def group_files_by_name (files : List String) : GroupDict :=
  files.foldl
    (fun fp fname =>
      let det := get_file_details fname
      let key := get_key fname
      let inner := (alookup fp det.1).getD []
      let p := (alookup inner key).getD {}
      aset fp det.1 (aset inner key (addToPair p fname det.2.1 det.2.2)))
    []

/-- The two run-scoped configuration flags of lib.py (globals
FIX_FILE_EXTENSIONS and CONVERT_HEIC_TO_JPG; None, i.e. falsy, until the
caller sets them). -/
structure Config where
  FIX_FILE_EXTENSIONS : Bool := false
  CONVERT_HEIC_TO_JPG : Bool := false

/-- Modelled from the spec: the repository module file_utils (imported by
lib.py but not present under src/) is abstracted as the collaborator
contract of the spec — a content sniffer for HEIC, a HEIC-to-JPEG
converter and an extension renamer, each returning the possibly new path
(None modelled as none). -/
structure FileUtils where
  is_heic : String → Bool
  convert_heic_to_jpg : String → Option String
  fix_incorrect_extension : String → Option String

/-- Python x or y for an optional string x (None and the empty string are
falsy). -/
def pyOrStr (r : Option String) (d : String) : String :=
  match r with
  | none => d
  | some s => if s.isEmpty then d else s

/-- The body of the inner loop of lib.py apply_image_fixes for one group.
can_fix_extensions evaluates len(pair.get("images")): a TypeError when the
"images" key is absent (len of None) and FIX_FILE_EXTENSIONS is truthy;
pair["images"] raises KeyError when absent. -/
def fix_pair (cfg : Config) (fu : FileUtils) (p : Pair) : Except PyErr Pair := do
  let canFix ←
    if cfg.FIX_FILE_EXTENSIONS then
      match p.images with
      | none => Except.error PyErr.typeError
      | some l => Except.ok (decide (l.length ≠ 0))
    else Except.ok false
  if cfg.CONVERT_HEIC_TO_JPG || canFix then
    match p.images with
    | none => Except.error PyErr.keyError
    | some l =>
      Except.ok { p with images := some (l.foldl
        (fun ns img =>
          let newName : Option String :=
            if cfg.CONVERT_HEIC_TO_JPG && fu.is_heic img then
              fu.convert_heic_to_jpg img
            else if canFix then fu.fix_incorrect_extension img
            else none
          setAdd ns (pyOrStr newName img)) []) }
  else Except.ok p

/-- lib.py apply_image_fixes: both nested loops over the grouped dict
(dirname, then key); the first raised error aborts the call. -/
def apply_image_fixes (cfg : Config) (fu : FileUtils) (fp : GroupDict) :
    Except PyErr GroupDict :=
  fp.foldlM
    (fun acc dpair => do
      let inner ← dpair.2.foldlM
        (fun iacc kp => do
          let p2 ← fix_pair cfg fu kp.2
          pure (iacc ++ [(kp.1, p2)])) []
      pure (acc ++ [(dpair.1, inner)]))
    []

/-- The keys present in a group dict, as Python iteration over the dict
would yield them.  (Insertion order may put "images" first; every use
below is insensitive to the order, only to emptiness.) -/
def pairKeys (p : Pair) : List String :=
  (if p.json.isSome then ["json"] else []) ++
  (if p.images.isSome then ["images"] else [])

/-- Lines 179-188 of lib.py process_files_in_dir, modelled faithfully:
the loop iterates the OUTER dict, so key ranges over directory names and
pair is the dict of groups of that directory.  Hence len(pair) counts
groups, pair["images"] looks a group key called "images" up in that dict
(KeyError when absent; when present its value is a group dict, so the
first loop iteration passes pair["json"] — KeyError when absent, else a
dict — to apply_metadata, whose open() raises TypeError on a dict; with
an empty images dict the loop is skipped and os.remove(pair["json"]) is
the call that raises).  The accumulated result is the pair of
imgs_modified and the list of sidecar paths removed from disk. -/
def process_step (acc : Int × List String)
    (dpair : String × List (String × Pair)) :
    Except PyErr (Int × List String) :=
  if dpair.2.length < 2 then pure acc
  else
    match alookup dpair.2 "images" with
    | none => Except.error PyErr.keyError
    | some p =>
      match pairKeys p with
      | [] =>
        match alookup dpair.2 "json" with
        | none => Except.error PyErr.keyError
        | some _ => Except.error PyErr.typeError
      | _ :: _ =>
        match alookup dpair.2 "json" with
        | none => Except.error PyErr.keyError
        | some _ => Except.error PyErr.typeError

/-- The whole orchestrator loop, folding process_step from the initial
counter state (0 stamped, no sidecar removed). -/
def process_groups (fp : GroupDict) : Except PyErr (Int × List String) :=
  fp.foldlM process_step (0, [])

/-- lib.py process_files_in_dir: resolve through get_files, group, fix,
then the orchestrator loop. -/
def process_files_in_dir (fs : FS) (cfg : Config) (fu : FileUtils)
    (path : String) : Except PyErr (Int × List String) := do
  let files ← get_files fs path
  let fp := group_files_by_name files
  let fp2 ← apply_image_fixes cfg fu fp
  process_groups fp2

/-- A JSON scalar as it can appear under the "timestamp" key of a
sidecar. -/
inductive JVal
| jnum (n : Int)
| jstr (s : String)
| jnull
deriving DecidableEq, Repr

/-- The nested times object of a sidecar record: the value found under
"photoTakenTime" or "creationTime", holding an optional "timestamp"
key. -/
structure TimesRec where
  timestamp : Option JVal := none
deriving DecidableEq, Repr

/-- The parsed sidecar record, restricted to the two keys
apply_metadata reads; an absent field models an absent key. -/
structure SidecarMD where
  photoTakenTime : Option TimesRec := none
  creationTime : Option TimesRec := none
deriving DecidableEq, Repr

/-- Decimal integer parsing as Python int() does on a string: an optional
sign followed by at least one digit (surrounding whitespace, accepted by
Python, is not modelled — no sidecar value carries it). -/
def parseDecInt (s : String) : Option Int :=
  let p : Int × List Char :=
    match s.toList with
    | '-' :: rest => (-1, rest)
    | '+' :: rest => (1, rest)
    | cs => (1, cs)
  if p.2.isEmpty then none
  else if p.2.all Char.isDigit then
    some (p.1 * (p.2.foldl (fun a c => a * 10 + (c.toNat - 48)) 0 : Nat))
  else none

/-- Python int(x) for the value of times.get("timestamp"): TypeError on
None (absent key) or null, ValueError on a non-numeric string. -/
def pyInt : Option JVal → Except PyErr Int
| none => Except.error PyErr.typeError
| some JVal.jnull => Except.error PyErr.typeError
| some (JVal.jnum n) => Except.ok n
| some (JVal.jstr s) =>
  match parseDecInt s with
  | some n => Except.ok n
  | none => Except.error PyErr.valueError

/-- What lib.py apply_metadata did: nothing (early return on a falsy
timestamp) or a stamp of the extracted epoch seconds onto the media file
(the exif and filesystem sub-appliers, abstracted). -/
inductive StampOutcome
| skipped
| stamped (t : Int)
deriving DecidableEq, Repr

/-- lib.py apply_metadata, as a function of the parsed sidecar record:
pick md.get("photoTakenTime", md.get("creationTime", ...)), convert its
"timestamp" value with int(), return silently when that number is falsy,
otherwise stamp. -/
def apply_metadata (md : SidecarMD) : Except PyErr StampOutcome := do
  let times :=
    match md.photoTakenTime with
    | some t => t
    | none => md.creationTime.getD {}
  let n ← pyInt times.timestamp
  if n = 0 then pure StampOutcome.skipped
  else pure (StampOutcome.stamped n)

/-- The collaborator contract of the exif library used by
lib.py __apply_exif: construct a tag view from bytes, set the three
datetime fields, serialize back to bytes; every operation can raise. -/
structure TagLib (σ : Type) where
  parse : List Nat → Except String σ
  set_datetime : σ → String → Except String σ
  set_datetime_original : σ → String → Except String σ
  set_datetime_digitized : σ → String → Except String σ
  get_file : σ → Except String (List Nat)

/-- lib.py __apply_exif, with the media file's content made explicit:
returns the file's final bytes and whether some exception was swallowed.
The outer try/except catches everything, so no error escapes; on a
parse failure the file was never reopened and keeps its bytes; a failure
inside the inner try keeps the partially-updated tag view, and the file
is rewritten from it anyway; if serialization fails during the rewrite
the file was already truncated by open(.., "wb"). -/
def apply_exif (lib : TagLib σ) (bytes : List Nat) (dt : String) :
    List Nat × Bool :=
  match lib.parse bytes with
  | Except.error _ => (bytes, true)
  | Except.ok img =>
    let inner : σ × Bool :=
      match lib.set_datetime img dt with
      | Except.error _ => (img, true)
      | Except.ok a =>
        match lib.set_datetime_original a dt with
        | Except.error _ => (a, true)
        | Except.ok b =>
          match lib.set_datetime_digitized b dt with
          | Except.error _ => (b, true)
          | Except.ok c => (c, false)
    match lib.get_file inner.1 with
    | Except.error _ => ([], true)
    | Except.ok out => (out, inner.2)

/-- A concrete filesystem: directory "d" holding the image "a.jpg" and
its sidecar "a.jpg.json". -/
def fs1 : FS where
  isdir := fun p => p == "d"
  isfile := fun p => p == "d/a.jpg" || p == "d/a.jpg.json"
  listdir := fun p => if p == "d" then ["a.jpg", "a.jpg.json"] else []
  is_image := fun p => p == "d/a.jpg"
  is_video := fun _ => false
  is_zipfile := fun _ => false

/-- A concrete filesystem: directory "d" holding the image "a.jpg", its
sidecar "a.jpg.json", and an unrelated image "b.png". -/
def fs2 : FS where
  isdir := fun p => p == "d"
  isfile := fun p => p == "d/a.jpg" || p == "d/a.jpg.json" || p == "d/b.png"
  listdir := fun p => if p == "d" then ["a.jpg", "a.jpg.json", "b.png"] else []
  is_image := fun p => p == "d/a.jpg" || p == "d/b.png"
  is_video := fun _ => false
  is_zipfile := fun _ => false

/-- A concrete filesystem with a nested directory: "d" contains only the
subdirectory "s", which contains the image "a.jpg". -/
def fs3 : FS where
  isdir := fun p => p == "d" || p == "d/s"
  isfile := fun p => p == "d/s/a.jpg"
  listdir := fun p =>
    if p == "d" then ["s"] else if p == "d/s" then ["a.jpg"] else []
  is_image := fun p => p == "d/s/a.jpg"
  is_video := fun _ => false
  is_zipfile := fun _ => false

/-- A concrete filesystem: directory "d" holding only the two media files
"a.jpg" and "b.png" — no sidecars, as after a run that consumed them. -/
def fs5 : FS where
  isdir := fun p => p == "d"
  isfile := fun p => p == "d/a.jpg" || p == "d/b.png"
  listdir := fun p => if p == "d" then ["a.jpg", "b.png"] else []
  is_image := fun p => p == "d/a.jpg" || p == "d/b.png"
  is_video := fun _ => false
  is_zipfile := fun _ => false

/-- The default configuration: both flags unset. -/
def cfg0 : Config := {}

/-- Inert file_utils collaborators (nothing sniffed as HEIC, converters
never used). -/
def fu0 : FileUtils where
  is_heic := fun _ => false
  convert_heic_to_jpg := fun _ => none
  fix_incorrect_extension := fun _ => none

/-- A tag library instance over state Nat whose second field-set is
rejected after the first succeeded and changed the state. -/
def badlib : TagLib Nat where
  parse := fun _ => Except.ok 0
  set_datetime := fun _ _ => Except.ok 1
  set_datetime_original := fun _ _ => Except.error "field rejected"
  set_datetime_digitized := fun s _ => Except.ok s
  get_file := fun s => Except.ok [s]

/-- A tag library instance over state Nat whose construction step always
fails. -/
def noparse : TagLib Nat where
  parse := fun _ => Except.error "unsupported container"
  set_datetime := fun s _ => Except.ok s
  set_datetime_original := fun s _ => Except.ok s
  set_datetime_digitized := fun s _ => Except.ok s
  get_file := fun s => Except.ok [s]

/-- The orchestrator step never changes the accumulator: every branch
either skips (returning the accumulator unchanged) or raises. -/
theorem process_step_acc (acc : Int × List String)
    (d : String × List (String × Pair)) (r : Int × List String)
    (h : process_step acc d = Except.ok r) : r = acc := by
  unfold process_step at h
  split at h
  · exact ((Except.ok.injEq _ _).mp h).symm
  · split at h
    · exact Except.noConfusion h
    · split at h <;> split at h <;> exact Except.noConfusion h

/-- Folding process_step can only return the initial accumulator. -/
theorem process_fold_acc (fp : GroupDict) :
    ∀ acc r, fp.foldlM process_step acc = Except.ok r → r = acc := by
  induction fp with
  | nil =>
    intro acc r h
    exact ((Except.ok.injEq _ _).mp h).symm
  | cons d t ih =>
    intro acc r h
    have h' : (process_step acc d >>= fun b => t.foldlM process_step b) =
        Except.ok r := h
    cases hs : process_step acc d with
    | error e =>
      rw [hs] at h'
      exact Except.noConfusion h'
    | ok b =>
      rw [hs] at h'
      have hb := process_step_acc acc d b hs
      subst hb
      exact ih _ _ h'

/-- Claim C1, evidence of the code bug: on a directory holding exactly
one complete group — the image a.jpg with its sidecar a.jpg.json, one
variant — grouping produces that single complete group, yet
process_files_in_dir makes no stamping attempt and returns 0 where the
claim requires one applyMetadata call per variant and a returned count
of 1.  The orchestrator loop iterates the directory level of the nested
dict, finds a single inner entry, and skips the whole directory as
unpaired. -/
theorem process_skips_single_complete_group :
    get_files fs1 "d" = Except.ok ["d/a.jpg", "d/a.jpg.json"] ∧
    group_files_by_name ["d/a.jpg", "d/a.jpg.json"] =
      [("d", [("a", ⟨some "a.jpg.json", some ["a.jpg"]⟩)])] ∧
    process_files_in_dir fs1 cfg0 fu0 "d" = Except.ok (0, []) :=
  ⟨rfl, by decide, rfl⟩

/-- Claim C2, evidence of the code bug: on a plain directory input (not
one of the two fatal input conditions) holding a.jpg, a.jpg.json and
b.png, process_files_in_dir raises KeyError to its caller — the
directory-level dict has two group entries, so the loop evaluates
pair with the key "images", which is not a group key. -/
theorem process_raises_keyError_on_plain_directory :
    fs2.isdir "d" = true ∧
    process_files_in_dir fs2 cfg0 fu0 "d" = Except.error PyErr.keyError :=
  ⟨rfl, rfl⟩

/-- Claim C3, counterexample: the resolution step used by processRoot is
get_files, which only lists the immediate entries of the root.  In fs3
the image d/s/a.jpg is a regular file at depth 2 beneath the root "d",
sniffed as an image, yet get_files returns the empty list (the entry
d/s is a directory and fails the regular-file filter; nothing recurses
into it). -/
theorem get_files_misses_nested_file :
    fs3.isdir "d" = true ∧
    Reaches fs3 "d" "d/s/a.jpg" ∧
    fs3.isfile "d/s/a.jpg" = true ∧
    file_filter fs3 "d/s/a.jpg" = true ∧
    get_files fs3 "d" = Except.ok [] := by
  refine ⟨rfl, ?_, rfl, rfl, rfl⟩
  have h1 : Reaches fs3 "d" ("d" ++ "/" ++ "s") :=
    Reaches.step "d" "s" Reaches.base rfl (by decide)
  exact Reaches.step ("d" ++ "/" ++ "s") "a.jpg" h1 rfl (by decide)

/-- Claim C3, amended: when the root input is a directory, the path
resolution step used by processRoot enumerates exactly the immediate
entries of that directory (depth 1, no recursion into subdirectories),
keeping those sniffed as image or video or named with the sidecar
suffix. -/
theorem get_files_dir_characterization (fs : FS) (path : String)
    (h : fs.isdir path = true) (l : List String)
    (hl : get_files fs path = Except.ok l) (p : String) :
    p ∈ l ↔ ∃ n ∈ fs.listdir path,
      p = path ++ "/" ++ n ∧ file_filter fs p = true := by
  unfold get_files at hl
  rw [if_pos h] at hl
  have he := (Except.ok.injEq _ _).mp hl
  subst he
  constructor
  · intro hp
    have hm := List.mem_filter.mp hp
    obtain ⟨n, hn, hf⟩ := List.mem_map.mp hm.1
    exact ⟨n, hn, hf.symm, hm.2⟩
  · rintro ⟨n, hn, hp, hq⟩
    exact List.mem_filter.mpr ⟨List.mem_map.mpr ⟨n, hn, hp.symm⟩, hq⟩

/-- Witness for the amended claim C3, at the concrete filesystem fs1 and
the concrete path d/a.jpg. -/
theorem get_files_dir_characterization_witness :
    fs1.isdir "d" = true ∧
    ("d/a.jpg" ∈ ["d/a.jpg", "d/a.jpg.json"] ↔
      ∃ n ∈ fs1.listdir "d",
        "d/a.jpg" = "d" ++ "/" ++ n ∧ file_filter fs1 "d/a.jpg" = true) :=
  ⟨rfl, get_files_dir_characterization fs1 "d" rfl _ rfl "d/a.jpg"⟩

/-- Claim C4, evidence of the code bug: a sidecar record carrying
neither usable field, or a times object with no "timestamp" key, makes
apply_metadata raise TypeError (Python int of None) instead of the
silent return the claim states; the zero-timestamp case does return
silently. -/
theorem apply_metadata_missing_timestamp_raises :
    apply_metadata {} = Except.error PyErr.typeError ∧
    apply_metadata ⟨none, some {}⟩ = Except.error PyErr.typeError ∧
    apply_metadata ⟨some ⟨some (JVal.jstr "0")⟩, none⟩ =
      Except.ok StampOutcome.skipped ∧
    apply_metadata ⟨some ⟨some (JVal.jnum 0)⟩, none⟩ =
      Except.ok StampOutcome.skipped :=
  ⟨rfl, rfl, rfl, rfl⟩

/-- Claim C5: deriveKey collapses the original capture, its edited copy
and its sidecar to the same key IMG_1. -/
theorem get_key_collapses_variants :
    get_key "IMG_1.JPG" = "IMG_1" ∧
    get_key "IMG_1-edited.JPG" = "IMG_1" ∧
    get_key "IMG_1.JPG.json" = "IMG_1" :=
  ⟨by decide, by decide, by decide⟩

/-- Claim C6, counterexample: the basename a.jpg.JSON has final
extension .JSON, equal to the sidecar suffix under case-insensitive
comparison, and stripping one more extension layer from the remaining
prefix a.jpg would give the key "a"; but get_key compares the extension
with ".json" case-sensitively, takes the edited/plain branch instead,
and returns "a.jpg". -/
theorem get_key_upper_json_not_stripped :
    pyLower (get_file_details "a.jpg.JSON").2.2 = ".json" ∧
    (splitext (get_file_details "a.jpg.JSON").2.1).1 = "a" ∧
    get_key "a.jpg.JSON" = "a.jpg" ∧
    ("a.jpg" : String) ≠ "a" :=
  ⟨by decide, by decide, by decide, by decide⟩

/-- Claim C6, amended: for every filename whose final extension equals
the sidecar suffix ".json" exactly (case-sensitively — ".JSON" and
".Json" do not match), deriveKey strips one more extension layer from
the remaining prefix and returns that as the key. -/
theorem get_key_json_exact_strips_twice (b : String)
    (h : (get_file_details b).2.2 = ".json") :
    get_key b = (splitext (get_file_details b).2.1).1 := by
  unfold get_key
  rw [if_pos h]

/-- Witness for the amended claim C6, at the concrete basename
a.jpg.json. -/
theorem get_key_json_exact_strips_twice_witness :
    (get_file_details "a.jpg.json").2.2 = ".json" ∧
    get_key "a.jpg.json" = (splitext (get_file_details "a.jpg.json").2.1).1 :=
  ⟨rfl, get_key_json_exact_strips_twice "a.jpg.json" rfl⟩

/-- Claim C7, evidence of the code bug: a group holding only a sidecar
(no "images" key) makes the Fixer raise instead of leaving the group
unchanged — TypeError from len(pair.get("images")) when
FIX_FILE_EXTENSIONS is set, KeyError from pair["images"] when only
CONVERT_HEIC_TO_JPG is set.  With both flags unset the group dict is
returned unchanged. -/
theorem apply_image_fixes_sidecar_only_raises :
    apply_image_fixes ⟨true, false⟩ fu0
      [("d", [("k", ⟨some "k.json", none⟩)])] =
      Except.error PyErr.typeError ∧
    apply_image_fixes ⟨false, true⟩ fu0
      [("d", [("k", ⟨some "k.json", none⟩)])] =
      Except.error PyErr.keyError ∧
    apply_image_fixes cfg0 fu0 [("d", [("k", ⟨some "k.json", none⟩)])] =
      Except.ok [("d", [("k", ⟨some "k.json", none⟩)])] :=
  ⟨rfl, rfl, rfl⟩

/-- Claim C8, evidence of the code bug: whenever the orchestrator loop
terminates normally it has removed no sidecar at all — every iteration
either skips a directory or raises, so the cleanup the claim describes
(delete the sidecar after stamping all variants of a complete group)
never takes place. -/
theorem process_groups_never_removes (fp : GroupDict)
    (r : Int × List String) (h : process_groups fp = Except.ok r) :
    r.2 = [] := by
  have := process_fold_acc fp (0, []) r h
  rw [this]

/-- Witness for claim C8's theorem, at the grouping of the concrete
directory of fs1. -/
theorem process_groups_never_removes_witness :
    (((0 : Int), ([] : List String)).2 = ([] : List String)) :=
  process_groups_never_removes
    [("d", [("a", ⟨some "a.jpg.json", some ["a.jpg"]⟩)])] (0, []) rfl

/-- Claim C10, evidence of the code bug: a directory holding only media
files and no sidecars (the state the claim describes after a first run
consumed every sidecar) does not make the second run return 0 —
with the two media groups a and b in the directory-level dict the loop
evaluates pair with the key "images" and raises KeyError. -/
theorem process_raises_on_dir_without_sidecars :
    fs5.isdir "d" = true ∧
    (fs5.listdir "d").all (fun f => !(isJsonName f)) = true ∧
    process_files_in_dir fs5 cfg0 fu0 "d" = Except.error PyErr.keyError :=
  ⟨rfl, by decide, rfl⟩

/-- Claim C9, counterexample: with a tag library that accepts the first
datetime field and rejects the second, a swallowed failure still leaves
the media file rewritten from the partially-updated tag view — the
final bytes differ from the original ones, against the claim's
byte-identical requirement. -/
theorem apply_exif_set_failure_rewrites :
    (apply_exif badlib [0] "t").2 = true ∧
    apply_exif badlib [0] "t" = ([1], true) ∧
    ([1] : List Nat) ≠ [0] :=
  ⟨rfl, rfl, by decide⟩

/-- Claim C9, amended: the embedded-tag stamping step swallows every
failure (the model is a total function, no exception escapes); when the
tag-view construction itself fails the media file is left byte-identical,
but when a later field-set fails the file is still rewritten from the
partially-updated view and its bytes may change. -/
theorem apply_exif_parse_failure_frame {σ : Type} (lib : TagLib σ)
    (bytes : List Nat) (dt : String) (e : String)
    (h : lib.parse bytes = Except.error e) :
    apply_exif lib bytes dt = (bytes, true) := by
  unfold apply_exif
  rw [h]

/-- Witness for the amended claim C9, at the concrete library whose
construction step always fails. -/
theorem apply_exif_parse_failure_frame_witness :
    apply_exif noparse [7] "t" = ([7], true) :=
  apply_exif_parse_failure_frame noparse [7] "t" "unsupported container" rfl

end FixGPM
